import Mathlib

/-!
Verification of the personal-finance backend: shallow embedding of the
route handlers (budgets, analytics, transactions, goals, auth, AI
insights/tips/forecast) and the expense categorizer, with theorems
checking the natural-language specification against the code.

Monetary amounts and percentages are modelled as rationals; database
tables as lists; datetimes as records carrying the fields the code
reads (calendar month/year for budget filtering, an epoch-day number
for goal-date arithmetic).  External calls (the LLM chain, `json.loads`,
the password hash) are parameters of the embedded functions, since the
code treats their results opaquely.
-/

namespace FinAdvisor

/-- A datetime, carrying exactly the components the backend reads:
the calendar `month`/`year` (used by the budget queries through
`extract('month'/'year', Transaction.date)`) and an absolute day
number `epochDay` (used for date comparison and subtraction). -/
structure DateTime where
  year : Int
  month : Int
  epochDay : Int
  deriving DecidableEq, Repr

/-- Modelled from the spec: the `Transaction` entity of `models.py`
(absent from the source tree); field list per spec section 3 and the
`TransactionResponse` schema.  `category` is nullable. -/
structure Transaction where
  id : Int
  userId : Int
  description : String
  amount : ℚ
  category : Option String
  transactionType : String
  date : DateTime
  deriving DecidableEq, Repr

/-- Modelled from the spec: the `Budget` entity of `models.py`
(absent from the source tree); field list per spec section 3 and the
`BudgetResponse` schema. -/
structure Budget where
  id : Int
  userId : Int
  category : String
  monthlyLimit : ℚ
  currentSpent : ℚ
  month : Int
  year : Int
  deriving DecidableEq, Repr

/-- Modelled from the spec: the `Goal` entity of `models.py` (absent
from the source tree); field list per spec section 3.  `targetDate` is
a date-only value (epoch day number); `createdAt` is the creation
timestamp the spec lists (unused by any formula under test). -/
structure Goal where
  id : Int
  userId : Int
  name : String
  description : Option String
  targetAmount : ℚ
  currentAmount : ℚ
  targetDate : Int
  isCompleted : Bool
  createdAt : Int
  deriving DecidableEq, Repr

/-- Modelled from the spec: the `User` entity of `models.py` (absent
from the source tree); field list per spec section 3.  Only a hash of
the password is a field; there is no plaintext password column. -/
structure User where
  id : Int
  email : String
  username : String
  fullName : String
  hashedPassword : String
  isActive : Bool
  deriving DecidableEq, Repr

/-- An `HTTPException`: status code plus human-readable detail. -/
structure ApiError where
  statusCode : Int
  detail : String
  deriving DecidableEq, Repr

/-! ## Budget routes (`routes/budgets.py`) -/

/-- Embeds `round(x, 2)`: round to two decimal places. -/
def round2 (q : ℚ) : ℚ := (round (q * 100) : ℤ) / 100

/-- The percentage-used formula of `_format_budget_response` before
rounding: `(current_spent / monthly_limit * 100) if monthly_limit > 0
else 0`. -/
def rawPercentageUsed (b : Budget) : ℚ :=
  if b.monthlyLimit > 0 then b.currentSpent / b.monthlyLimit * 100 else 0

/-- The budget response dict (`BudgetResponse` schema). -/
structure BudgetResponse where
  id : Int
  userId : Int
  category : String
  monthlyLimit : ℚ
  currentSpent : ℚ
  remaining : ℚ
  percentageUsed : ℚ
  month : Int
  year : Int
  status : String
  deriving DecidableEq, Repr

/-- Embeds `_format_budget_response` (`routes/budgets.py` lines 229-253):
`remaining = limit - spent`; percentage as in `rawPercentageUsed`;
status thresholds on the unrounded percentage; the `percentage_used`
field is rounded to two decimals. -/
def formatBudgetResponse (b : Budget) : BudgetResponse :=
  let remaining := b.monthlyLimit - b.currentSpent
  let percentageUsed := rawPercentageUsed b
  let status :=
    if percentageUsed ≥ 100 then "over_budget"
    else if percentageUsed ≥ 80 then "near_limit"
    else "under_budget"
  { id := b.id
    userId := b.userId
    category := b.category
    monthlyLimit := b.monthlyLimit
    currentSpent := b.currentSpent
    remaining := remaining
    percentageUsed := round2 percentageUsed
    month := b.month
    year := b.year
    status := status }

/-- The transaction filter every budget operation uses to recompute
`current_spent`: same user, same category, `transaction_type ==
"expense"`, and the transaction date's month and year equal the
budget's. -/
def matchesBudgetSpent (userId : Int) (category : String) (month year : Int)
    (t : Transaction) : Bool :=
  t.userId == userId && t.category == some category &&
    t.transactionType == "expense" &&
    t.date.month == month && t.date.year == year

/-- The `current_spent` recomputation shared by every budget operation:
`SUM(Transaction.amount)` over the matching expense rows, `0` when
there are none (`scalar() or 0.0`).  The signed amounts are summed
directly; no absolute value is applied. -/
def recomputeSpent (txns : List Transaction) (userId : Int)
    (category : String) (month year : Int) : ℚ :=
  ((txns.filter (matchesBudgetSpent userId category month year)).map
    (fun t => t.amount)).sum

/-- Embeds `BudgetCreate` request schema. -/
structure BudgetCreate where
  category : String
  monthlyLimit : ℚ
  month : Int
  year : Int
  deriving DecidableEq, Repr

/-- Embeds `BudgetUpdate` request schema (all fields optional). -/
structure BudgetUpdate where
  monthlyLimit : Option ℚ
  month : Option Int
  year : Option Int
  deriving DecidableEq, Repr

/-- Embeds `create_budget`: reject a duplicate (user, category, month, year)
with a 400, else compute `current_spent` from the transactions and
append the new budget row. -/
def createBudget (budgets : List Budget) (txns : List Transaction)
    (userId : Int) (req : BudgetCreate) (newId : Int) :
    List Budget × Except ApiError BudgetResponse :=
  if budgets.any (fun b =>
      b.userId == userId && b.category == req.category &&
        b.month == req.month && b.year == req.year) then
    (budgets, .error ⟨400, "Budget already exists for " ++ req.category⟩)
  else
    let spent := recomputeSpent txns userId req.category req.month req.year
    let nb : Budget :=
      { id := newId
        userId := userId
        category := req.category
        monthlyLimit := req.monthlyLimit
        currentSpent := spent
        month := req.month
        year := req.year }
    (budgets ++ [nb], .ok (formatBudgetResponse nb))

/-- The list filter of `get_budgets`: the user's budgets, optionally
narrowed by month/year.  Python's `if month:` treats `0` like `None`,
so a zero filter value applies no filter. -/
def budgetListed (userId : Int) (monthQ yearQ : Option Int) (b : Budget) : Bool :=
  b.userId == userId &&
    (match monthQ with
     | none => true
     | some m => m == 0 || b.month == m) &&
    (match yearQ with
     | none => true
     | some y => y == 0 || b.year == y)

/-- Embeds `get_budgets`: recompute and persist `current_spent` for every
returned budget, then format each.  Returns the refreshed table and
the response list. -/
def getBudgets (budgets : List Budget) (txns : List Transaction)
    (userId : Int) (monthQ yearQ : Option Int) :
    List Budget × List BudgetResponse :=
  let refresh := fun (b : Budget) =>
    { b with currentSpent := recomputeSpent txns userId b.category b.month b.year }
  (budgets.map (fun b => if budgetListed userId monthQ yearQ b then refresh b else b),
   (budgets.filter (budgetListed userId monthQ yearQ)).map
     (fun b => formatBudgetResponse (refresh b)))

/-- Embeds `get_budget`: 404 when the id is absent or foreign, else recompute
`current_spent` and format. -/
def getBudget (budgets : List Budget) (txns : List Transaction)
    (userId : Int) (budgetId : Int) : Except ApiError BudgetResponse :=
  match budgets.find? (fun b => b.id == budgetId && b.userId == userId) with
  | none => .error ⟨404, "Budget not found"⟩
  | some b =>
    .ok (formatBudgetResponse
      { b with currentSpent := recomputeSpent txns userId b.category b.month b.year })

/-- Embeds `update_budget`: apply the provided fields, then recompute
`current_spent` against the (possibly new) month/year and format. -/
def updateBudget (budgets : List Budget) (txns : List Transaction)
    (userId : Int) (budgetId : Int) (upd : BudgetUpdate) :
    Except ApiError BudgetResponse :=
  match budgets.find? (fun b => b.id == budgetId && b.userId == userId) with
  | none => .error ⟨404, "Budget not found"⟩
  | some b =>
    let b1 := { b with monthlyLimit := upd.monthlyLimit.getD b.monthlyLimit
                       month := upd.month.getD b.month
                       year := upd.year.getD b.year }
    .ok (formatBudgetResponse
      { b1 with currentSpent := recomputeSpent txns userId b1.category b1.month b1.year })

/-! ## Analytics routes (`routes/analytics.py`) -/

/-- Embeds `sum(t.amount for t in transactions if t.transaction_type == "income")`. -/
def totalIncome (ts : List Transaction) : ℚ :=
  ((ts.filter (fun t => t.transactionType == "income")).map (fun t => t.amount)).sum

/-- Embeds `sum(abs(t.amount) for t in transactions if t.transaction_type == "expense")`. -/
def totalExpenses (ts : List Transaction) : ℚ :=
  ((ts.filter (fun t => t.transactionType == "expense")).map (fun t => |t.amount|)).sum

/-- Python dict assignment `d[k] = d.get(k, 0) + v`: update the entry
in place if the key is present, else append it. -/
def dictAdd (d : List (Option String × ℚ)) (k : Option String) (v : ℚ) :
    List (Option String × ℚ) :=
  match d with
  | [] => [(k, v)]
  | kv :: rest => if kv.1 = k then (k, kv.2 + v) :: rest else kv :: dictAdd rest k v

/-- Python `d.get(k, 0)`. -/
def dictGet (d : List (Option String × ℚ)) (k : Option String) : ℚ :=
  match d.find? (fun kv => kv.1 == k) with
  | some kv => kv.2
  | none => 0

/-- The category-breakdown loop of `get_analytics_summary`:
`categories[t.category] = categories.get(t.category, 0) + abs(t.amount)`
over the expense transactions, in order. -/
def categoryBreakdown (ts : List Transaction) : List (Option String × ℚ) :=
  ts.foldl
    (fun d t =>
      if t.transactionType == "expense" then dictAdd d t.category |t.amount| else d)
    []

/-- The analytics summary payload. -/
structure AnalyticsSummary where
  totalIncome : ℚ
  totalExpenses : ℚ
  netSavings : ℚ
  savingsRate : ℚ
  categoryBreakdown : List (Option String × ℚ)
  deriving DecidableEq, Repr

/-- Embeds `get_analytics_summary` (`routes/analytics.py` lines 10-40) on the
caller's transactions. -/
def getAnalyticsSummary (ts : List Transaction) : AnalyticsSummary :=
  let income := totalIncome ts
  let expenses := totalExpenses ts
  let net := income - expenses
  { totalIncome := income
    totalExpenses := expenses
    netSavings := net
    savingsRate := if income > 0 then net / income * 100 else 0
    categoryBreakdown := categoryBreakdown ts }

/-! ## Expense categorizer (`nlp_service.py`) -/

/-- Embeds `ExpenseCategorizer.CATEGORIES`, in source order. -/
def CATEGORIES : List String :=
  ["Food & Dining", "Transportation", "Shopping", "Entertainment",
   "Bills & Utilities", "Healthcare", "Education", "Travel",
   "Personal Care", "Groceries", "Income", "Other"]

/-- The fallback-match test of `ExpenseCategorizer.categorize`:
`valid_cat.lower() in category_lower or category_lower in
valid_cat.lower()` — case-insensitive substring containment in either
direction. -/
def looseCategoryMatch (validCat reply : String) : Bool :=
  decide (List.IsInfix validCat.toLower.data reply.toLower.data) ||
    decide (List.IsInfix reply.toLower.data validCat.toLower.data)

/-- Embeds `ExpenseCategorizer.categorize` (`nlp_service.py` lines 65-96).
The LLM chain invocation is an external call; its outcome (reply text
or raised exception) is the argument.  The reply is stripped; an exact
canonical match is returned as-is; otherwise the first loosely-matching
canonical category; otherwise — and on any call failure — `"Other"`. -/
def categorize (outcome : Except String String) : String :=
  match outcome with
  | .error _ => "Other"
  | .ok reply =>
    let category := reply.trim
    if category ∈ CATEGORIES then category
    else
      match CATEGORIES.find? (fun c => looseCategoryMatch c category) with
      | some c => c
      | none => "Other"

/-! ## Transaction creation (`routes/transactions.py`, `schemas.py`) -/

/-- Embeds `TransactionCreate` (`schemas.py` lines 27-33): description,
amount, transaction type, optional date.  There is no category field. -/
structure TransactionCreate where
  description : String
  amount : ℚ
  transactionType : String
  date : Option DateTime
  deriving DecidableEq, Repr

/-- A raw transaction-creation request body as a caller may send it,
including a `category` member the caller may choose to supply. -/
structure RawTransactionRequest where
  description : String
  amount : ℚ
  transactionType : String
  category : Option String
  date : Option DateTime
  deriving DecidableEq, Repr

/-- Pydantic's parse of the request body into `TransactionCreate`:
members not declared on the model — in particular `category` — are
ignored (pydantic's default extra-field behavior). -/
def parseTransactionCreate (raw : RawTransactionRequest) : TransactionCreate :=
  { description := raw.description
    amount := raw.amount
    transactionType := raw.transactionType
    date := raw.date }

/-- Embeds `create_transaction` (`routes/transactions.py` lines 27-52): the
category is always the categorizer's result for the description and
amount (`catOutcome` is the LLM chain outcome); the date is the request
date, defaulting to `datetime.utcnow()` (`now`). -/
def createTransaction (userId : Int) (req : TransactionCreate)
    (catOutcome : Except String String) (now : DateTime) (newId : Int) :
    Transaction :=
  { id := newId
    userId := userId
    description := req.description
    amount := req.amount
    category := some (categorize catOutcome)
    transactionType := req.transactionType
    date := req.date.getD now }

/-! ## Goal routes (`routes/goals.py`) -/

/-- The goal response dict (`GoalResponse` schema).  Dates are epoch
day numbers. -/
structure GoalResponse where
  id : Int
  userId : Int
  name : String
  description : Option String
  targetAmount : ℚ
  currentAmount : ℚ
  remainingAmount : ℚ
  progressPercentage : ℚ
  targetDate : Int
  daysRemaining : Int
  isCompleted : Bool
  status : String
  monthlySavingsNeeded : ℚ
  deriving DecidableEq, Repr

/-- The progress formula of `_format_goal_response` before rounding:
`(current_amount / target_amount * 100) if target_amount > 0 else 0`. -/
def goalProgress (g : Goal) : ℚ :=
  if g.targetAmount > 0 then g.currentAmount / g.targetAmount * 100 else 0

/-- Embeds `_format_goal_response` (`routes/goals.py` lines 246-282).
`today` is `date.today()` as an epoch day number;
`days_remaining = (target_date - today).days`.  The status for an
active, non-overdue goal is `"on_track"` when the unrounded progress
percentage is at least `100 - days_remaining / (days_remaining + 1) * 100`,
else `"behind"`. -/
def formatGoalResponse (g : Goal) (today : Int) : GoalResponse :=
  let remainingAmount := max 0 (g.targetAmount - g.currentAmount)
  let progressPercentage := goalProgress g
  let daysRemaining : Int := g.targetDate - today
  let monthsRemaining : ℚ := max 1 ((daysRemaining : ℚ) / 30)
  let monthlySavingsNeeded : ℚ :=
    if ¬g.isCompleted then remainingAmount / monthsRemaining else 0
  let status :=
    if g.isCompleted then "completed"
    else if daysRemaining < 0 then "overdue"
    else if progressPercentage ≥
        (100 - ((daysRemaining : ℚ) / (((g.targetDate - today : Int) : ℚ) + 1) * 100)) then
      "on_track"
    else "behind"
  { id := g.id
    userId := g.userId
    name := g.name
    description := g.description
    targetAmount := g.targetAmount
    currentAmount := g.currentAmount
    remainingAmount := remainingAmount
    progressPercentage := round2 progressPercentage
    targetDate := g.targetDate
    daysRemaining := max 0 daysRemaining
    isCompleted := g.isCompleted
    status := status
    monthlySavingsNeeded := round2 monthlySavingsNeeded }

/-- Embeds `contribute_to_goal` (`routes/goals.py` lines 182-218), applied to
the goal row found for the caller.  Returns the resulting stored goal
row together with the error, if any: contributing to a completed goal
raises a 400 before any mutation, leaving the row unchanged; otherwise
the amount is added and the goal auto-completes when the new
`current_amount` reaches `target_amount`. -/
def contributeToGoal (g : Goal) (amount : ℚ) : Goal × Option ApiError :=
  if g.isCompleted then
    (g, some ⟨400, "Cannot contribute to a completed goal"⟩)
  else
    let g1 := { g with currentAmount := g.currentAmount + amount }
    let g2 := if g1.currentAmount ≥ g1.targetAmount then
        { g1 with isCompleted := true }
      else g1
    (g2, none)

/-! ## Expense forecast (`routes/ai.py`) -/

/-- Embeds `pandas.Series.mean` over a rational series: sum divided by
length. -/
def meanQ (l : List ℚ) : ℚ := l.sum / l.length

/-- Embeds `Series.tail n`: the last `n` elements. -/
def lastN (n : Nat) (l : List ℚ) : List ℚ := l.drop (l.length - n)

/-- The moving average of `statistical_forecast_fallback`:
`df['y'].tail(30).mean() if len(df) >= 30 else df['y'].mean()`. -/
def recentAverage (ys : List ℚ) : ℚ :=
  if ys.length ≥ 30 then meanQ (lastN 30 ys) else meanQ ys

/-- The linear trend of `statistical_forecast_fallback`:
`(df['y'].tail(7).mean() - df['y'].head(7).mean()) / len(df)` when the
series has at least 7 points, else `0`. -/
def linearTrend (ys : List ℚ) : ℚ :=
  if ys.length ≥ 7 then (meanQ (lastN 7 ys) - meanQ (ys.take 7)) / ys.length else 0

/-- One daily prediction row of the statistical fallback.  `daysAhead`
is the loop index `i` (the predicted date is the last observed date
plus `i` days). -/
structure DailyPrediction where
  daysAhead : Nat
  yhat : ℚ
  yhatLower : ℚ
  yhatUpper : ℚ
  confidence : Int
  deriving DecidableEq, Repr

/-- Embeds `statistical_forecast_fallback` (`routes/ai.py` lines 170-202) on
the daily expense series `ys` (one value per observed day, in date
order): for `i` in `1..periods`, predict `recent_avg + trend*i`, store
`yhat = max(0, pred)`, bounds `max(0, pred*0.85)` and `pred*1.15`, and
`confidence = max(70, 95 - i)`.  An empty series yields `[]`. -/
def statisticalForecastFallback (ys : List ℚ) (periods : Nat) : List DailyPrediction :=
  if ys.length = 0 then []
  else
    let recentAvg := recentAverage ys
    let recentTrend := linearTrend ys
    (List.range periods).map (fun j =>
      let i : Nat := j + 1
      let predictedValue := recentAvg + recentTrend * (i : ℚ)
      { daysAhead := i
        yhat := max 0 predictedValue
        yhatLower := max 0 (predictedValue * (85 / 100))
        yhatUpper := predictedValue * (115 / 100)
        confidence := max 70 (95 - (i : Int)) })

/-- The fallback call of `forecast_expenses` (`routes/ai.py` lines
379-398): `statistical_forecast_fallback(df, periods=months * 30)` —
the daily predictions produced before monthly aggregation. -/
def statisticalDailyPredictions (ys : List ℚ) (months : Nat) : List DailyPrediction :=
  statisticalForecastFallback ys (months * 30)

/-! ## AI insights and tips (`routes/ai.py`, `schemas.py`) -/

/-- A JSON value, as `json.loads` produces it. -/
inductive JsonVal where
  | null
  | bool (b : Bool)
  | num (q : ℚ)
  | str (s : String)
  | arr (items : List JsonVal)
  | obj (fields : List (String × JsonVal))

/-- Python `str.find(c)`: index of the first occurrence, or none
(Python returns `-1`). -/
def strFind (s : String) (c : Char) : Option Nat :=
  s.data.indexOf? c

/-- Python `str.rfind(c)`: index of the last occurrence, or none. -/
def strRfind (s : String) (c : Char) : Option Nat :=
  match s.data.reverse.indexOf? c with
  | none => none
  | some k => some (s.data.length - 1 - k)

/-- Python `s[a:b]` for `0 ≤ a ≤ b`. -/
def strSlice (s : String) (a b : Nat) : String :=
  ⟨(s.data.drop a).take (b - a)⟩

/-- The two-stage JSON recovery used by both the insights and the tips
endpoint: `json.loads` the reply directly; on failure, find the first
`[` and the last `]` and, when `start >= 0 and end > start`, parse that
slice; any remaining failure propagates (and is caught by the outer
handler).  `jsonLoads` stands for the Python `json.loads` library
call: the parse result, or none when it raises. -/
def twoStageParse (jsonLoads : String → Option JsonVal) (content : String) :
    Option JsonVal :=
  match jsonLoads content with
  | some v => some v
  | none =>
    match strFind content '[', strRfind content ']' with
    | some s, some e =>
      if s < e + 1 then jsonLoads (strSlice content s (e + 1)) else none
    | _, _ => none

/-- A validated insight (`Insight` schema, `schemas.py` lines 196-211). -/
structure Insight where
  type : String
  title : String
  message : String
  confidence : String
  deriving DecidableEq, Repr

/-- Look up a required string member of a JSON object. -/
def getStrField (fields : List (String × JsonVal)) (key : String) : Option String :=
  match fields.find? (fun kv => kv.1 == key) with
  | some (_, .str s) => some s
  | _ => none

/-- Pydantic validation of one `Insight`: a JSON object with string
members `type`, `title` (1-100 chars), `message` (1-500 chars) and
`confidence`. -/
def validateInsightItem (v : JsonVal) : Option Insight :=
  match v with
  | .obj fields =>
    match getStrField fields "type", getStrField fields "title",
        getStrField fields "message", getStrField fields "confidence" with
    | some t, some ti, some m, some c =>
      if 1 ≤ ti.length ∧ ti.length ≤ 100 ∧ 1 ≤ m.length ∧ m.length ≤ 500 then
        some { type := t, title := ti, message := m, confidence := c }
      else none
    | _, _, _, _ => none
  | _ => none

/-- Pydantic validation of `InsightResponse` (`schemas.py` lines
214-230): a JSON array of 1 to 10 valid insights. -/
def validateInsights (v : JsonVal) : Option (List Insight) :=
  match v with
  | .arr items =>
    match items.mapM validateInsightItem with
    | some l => if 1 ≤ l.length ∧ l.length ≤ 10 then some l else none
    | none => none
  | _ => none

/-- The hardcoded fallback insights of `get_ai_insights`
(`routes/ai.py` lines 287-306). -/
def fallbackInsights : List Insight :=
  [{ type := "positive", title := "Good Savings Habit",
     message := "You're maintaining a positive savings rate this month.",
     confidence := "90%" },
   { type := "opportunity", title := "Investment Opportunity",
     message := "Consider investing your savings for better returns.",
     confidence := "85%" },
   { type := "warning", title := "Track Your Expenses",
     message := "Some expense categories need closer monitoring.",
     confidence := "88%" }]

/-- Embeds `get_ai_insights` (`routes/ai.py` lines 240-306), as a function of
the LLM call outcome (`outcome`) and the JSON library (`jsonLoads`):
parse the reply with the two-stage recovery and validate it as an
`InsightResponse`; any failure — call error, parse failure, or
response-schema validation error — is caught and replaced by the
hardcoded fallback. -/
def getAIInsights (jsonLoads : String → Option JsonVal)
    (outcome : Except String String) : List Insight :=
  match outcome with
  | .error _ => fallbackInsights
  | .ok content =>
    match twoStageParse jsonLoads content with
    | none => fallbackInsights
    | some v =>
      match validateInsights v with
      | some insights => insights
      | none => fallbackInsights

/-- The hardcoded fallback tips of `get_financial_tips`
(`routes/ai.py` lines 469-488), as the JSON value of the `"tips"`
member. -/
def fallbackTipsJson : JsonVal :=
  .arr
    [.obj [("title", .str "Automate Savings"),
           ("description", .str "Set up automatic transfers to save 20% of income without thinking about it."),
           ("impact", .str "High"), ("difficulty", .str "Easy")],
     .obj [("title", .str "Track Daily Expenses"),
           ("description", .str "Monitor spending daily to identify unnecessary purchases and save more."),
           ("impact", .str "Medium"), ("difficulty", .str "Easy")],
     .obj [("title", .str "Create Emergency Fund"),
           ("description", .str "Build 6 months of expenses as emergency fund for financial security."),
           ("impact", .str "High"), ("difficulty", .str "Medium")]]

/-- Embeds `get_financial_tips` (`routes/ai.py` lines 427-488): the endpoint
has no response model, so whatever the two-stage parse produces is
returned directly as the `"tips"` value; a call or parse failure falls
back to the hardcoded tips.  The result is the JSON value of the
`"tips"` member of the payload. -/
def getFinancialTips (jsonLoads : String → Option JsonVal)
    (outcome : Except String String) : JsonVal :=
  match outcome with
  | .error _ => fallbackTipsJson
  | .ok content =>
    match twoStageParse jsonLoads content with
    | none => fallbackTipsJson
    | some v => v

/-- The number of entries in a `"tips"` payload value: the length when
it is a JSON array, else `0` (a non-array value contains no tips). -/
def tipsCount : JsonVal → Nat
  | .arr items => items.length
  | _ => 0

/-! ## Registration (`routes/auth.py`) -/

/-- Embeds `UserCreate` request schema. -/
structure UserCreate where
  email : String
  username : String
  fullName : String
  password : String
  deriving DecidableEq, Repr

/-- Embeds `register` (`routes/auth.py` lines 17-45): reject a duplicate
email, then a duplicate username, each with a 400 naming the field and
without touching the table; otherwise hash the password (`hash` stands
for `get_password_hash`) and append the new user row (active by
default).  Returns the resulting user table and the outcome (the new
user's id on success). -/
def register (users : List User) (req : UserCreate) (hash : String → String)
    (newId : Int) : List User × Except ApiError Int :=
  if users.any (fun u => u.email == req.email) then
    (users, .error ⟨400, "Email already registered"⟩)
  else if users.any (fun u => u.username == req.username) then
    (users, .error ⟨400, "Username already taken"⟩)
  else
    let u : User :=
      { id := newId
        email := req.email
        username := req.username
        fullName := req.fullName
        hashedPassword := hash req.password
        isActive := true }
    (users ++ [u], .ok newId)

/-! ## Concrete instances used by witnesses and counterexamples -/

/-- A budget one third spent: limit 3, spent 1. -/
def c1Budget : Budget :=
  { id := 1, userId := 1, category := "Groceries", monthlyLimit := 3,
    currentSpent := 1, month := 5, year := 2024 }

/-- A budget with a zero monthly limit. -/
def c1ZeroBudget : Budget :=
  { id := 2, userId := 1, category := "Travel", monthlyLimit := 0,
    currentSpent := 5, month := 5, year := 2024 }

/-- One income transaction of 100000 and one expense of -40000. -/
def c2Txns : List Transaction :=
  [{ id := 1, userId := 1, description := "Salary", amount := 100000,
     category := some "Income", transactionType := "income",
     date := ⟨2024, 5, 19850⟩ },
   { id := 2, userId := 1, description := "Rent", amount := -40000,
     category := some "Bills & Utilities", transactionType := "expense",
     date := ⟨2024, 5, 19851⟩ }]

/-- A creation request that supplies an explicit category. -/
def c4Raw : RawTransactionRequest :=
  { description := "Flight to Goa", amount := 20000,
    transactionType := "expense", category := some "Travel", date := none }

/-- An active goal at 40 of 100. -/
def c5Goal : Goal :=
  { id := 1, userId := 1, name := "Emergency fund", description := none,
    targetAmount := 100, currentAmount := 40, targetDate := 20000,
    isCompleted := false, createdAt := 19700 }

/-- A completed goal. -/
def c5DoneGoal : Goal :=
  { id := 2, userId := 1, name := "Laptop", description := none,
    targetAmount := 50, currentAmount := 50, targetDate := 20000,
    isCompleted := true, createdAt := 19700 }

/-- A daily expense series with a sharply negative trend: one spike of
10 followed by seven zero days. -/
def c6Series : List ℚ := [10, 0, 0, 0, 0, 0, 0, 0]

/-- The fragment of `json.loads` behavior the tips scenario needs: the
reply `"[]"` is well-formed JSON and parses to the empty array. -/
def demoJsonLoads : String → Option JsonVal :=
  fun s => if s = "[]" then some (.arr []) else none

/-- An existing registered user. -/
def c8Alice : User :=
  { id := 1, email := "alice@example.com", username := "alice",
    fullName := "Alice A", hashedPassword := "h1", isActive := true }

/-- A registration request reusing Alice's email. -/
def c8DupReq : UserCreate :=
  { email := "alice@example.com", username := "alice2",
    fullName := "Alice Again", password := "pw" }

/-- A registration request with fresh email and username. -/
def c8FreshReq : UserCreate :=
  { email := "bob@example.com", username := "bob",
    fullName := "Bob B", password := "secret" }

/-- A single matching expense transaction stored with a negative
amount. -/
def c9Txns : List Transaction :=
  [{ id := 7, userId := 1, description := "Groceries refund mix-up",
     amount := -50, category := some "Groceries",
     transactionType := "expense", date := ⟨2024, 5, 19860⟩ }]

/-- A budget-creation request matching `c9Txns`. -/
def c9Req : BudgetCreate :=
  { category := "Groceries", monthlyLimit := 200, month := 5, year := 2024 }

/-- A goal at 50 of 100 with nine days remaining as of day 19991. -/
def c10Goal : Goal :=
  { id := 3, userId := 1, name := "Trip", description := none,
    targetAmount := 100, currentAmount := 50, targetDate := 20000,
    isCompleted := false, createdAt := 19700 }

/-! ## Theorems -/

/-- C1 (amended): for every budget response, `remaining` equals
`monthly_limit - current_spent`; the `percentage_used` field equals
`current_spent / monthly_limit * 100` (0 when `monthly_limit` is 0)
rounded to two decimal places; and `status` is decided on the
unrounded percentage: `"over_budget"` exactly when it is at least 100,
`"near_limit"` exactly when it is at least 80 and below 100, and
`"under_budget"` otherwise. -/
theorem c1_budget_response_formulas (b : Budget) :
    (formatBudgetResponse b).remaining = b.monthlyLimit - b.currentSpent ∧
    (formatBudgetResponse b).percentageUsed = round2 (rawPercentageUsed b) ∧
    (b.monthlyLimit = 0 → rawPercentageUsed b = 0) ∧
    (b.monthlyLimit > 0 →
      rawPercentageUsed b = b.currentSpent / b.monthlyLimit * 100) ∧
    ((formatBudgetResponse b).status = "over_budget" ↔ rawPercentageUsed b ≥ 100) ∧
    ((formatBudgetResponse b).status = "near_limit" ↔
      80 ≤ rawPercentageUsed b ∧ rawPercentageUsed b < 100) ∧
    ((formatBudgetResponse b).status = "under_budget" ↔ rawPercentageUsed b < 80) := by
  have hs1 : ("near_limit" : String) ≠ "over_budget" := by decide
  have hs2 : ("under_budget" : String) ≠ "over_budget" := by decide
  have hs3 : ("over_budget" : String) ≠ "near_limit" := by decide
  have hs4 : ("under_budget" : String) ≠ "near_limit" := by decide
  have hs5 : ("over_budget" : String) ≠ "under_budget" := by decide
  have hs6 : ("near_limit" : String) ≠ "under_budget" := by decide
  have hstat : (formatBudgetResponse b).status =
      (if rawPercentageUsed b ≥ 100 then "over_budget"
       else if rawPercentageUsed b ≥ 80 then "near_limit"
       else "under_budget") := rfl
  refine ⟨rfl, rfl, ?_, ?_, ?_, ?_, ?_⟩
  · intro h0; simp [rawPercentageUsed, h0]
  · intro hpos; simp [rawPercentageUsed, hpos]
  · rw [hstat]; split_ifs with h1 h2
    · simpa using h1
    · exact iff_of_false hs1 (by linarith)
    · exact iff_of_false hs2 (by linarith [lt_of_not_ge h2])
  · rw [hstat]; split_ifs with h1 h2
    · exact iff_of_false hs3 (fun hcon => absurd h1 (not_le.mpr hcon.2))
    · exact iff_of_true rfl ⟨h2, lt_of_not_ge h1⟩
    · exact iff_of_false hs4 (fun hcon => h2 hcon.1)
  · rw [hstat]; split_ifs with h1 h2
    · exact iff_of_false hs5 (by linarith)
    · exact iff_of_false hs6 (by linarith)
    · exact iff_of_true rfl (lt_of_not_ge h2)

/-- C1 witness: concrete instantiation — for the zero-limit budget the
unrounded percentage is 0 and the status is `"under_budget"`. -/
theorem c1_budget_response_formulas_witness :
    rawPercentageUsed c1ZeroBudget = 0 ∧
    (formatBudgetResponse c1ZeroBudget).status = "under_budget" := by
  have h := c1_budget_response_formulas c1ZeroBudget
  have h0 : rawPercentageUsed c1ZeroBudget = 0 := h.2.2.1 (by norm_num [c1ZeroBudget])
  exact ⟨h0, h.2.2.2.2.2.2.mpr (by rw [h0]; norm_num)⟩

/-- C1 counterexample: for a budget with limit 3 and spent 1 the
response's `percentage_used` field is 33.33, not `1/3*100 = 100/3`:
the stored field is rounded to two decimals, so it does not equal
`current_spent / monthly_limit * 100` as claimed. -/
theorem c1_percentage_rounding_counterexample :
    (formatBudgetResponse c1Budget).percentageUsed = 3333 / 100 ∧
    c1Budget.currentSpent / c1Budget.monthlyLimit * 100 = 100 / 3 ∧
    (3333 / 100 : ℚ) ≠ 100 / 3 := by
  refine ⟨?_, by norm_num [c1Budget], by norm_num⟩
  show round2 (rawPercentageUsed c1Budget) = 3333 / 100
  norm_num [round2, rawPercentageUsed, c1Budget, round_eq]

theorem dictGet_nil (k : Option String) : dictGet [] k = 0 := rfl

theorem dictGet_cons (x : Option String × ℚ) (rest : List (Option String × ℚ))
    (k : Option String) :
    dictGet (x :: rest) k = if x.1 = k then x.2 else dictGet rest k := by
  by_cases h : x.1 = k
  · have hb : (x.1 == k) = true := beq_iff_eq.mpr h
    simp [dictGet, List.find?, hb, h]
  · have hb : (x.1 == k) = false := by
      simpa using h
    simp [dictGet, List.find?, hb, h]

theorem dictGet_dictAdd (d : List (Option String × ℚ)) (k k' : Option String)
    (v : ℚ) :
    dictGet (dictAdd d k v) k' = dictGet d k' + (if k' = k then v else 0) := by
  induction d with
  | nil =>
    rw [dictAdd, dictGet_cons, dictGet_nil, zero_add]
    by_cases h : k' = k
    · rw [if_pos h.symm, if_pos h]
    · rw [if_neg (fun hc => h (Eq.symm hc)), if_neg h]
  | cons x rest ih =>
    obtain ⟨xk, xv⟩ := x
    by_cases hx : xk = k
    · subst hx
      rw [dictAdd, if_pos rfl, dictGet_cons, dictGet_cons]
      by_cases hk : k' = xk
      · subst hk
        rw [if_pos rfl, if_pos rfl, if_pos rfl]
      · rw [if_neg (fun hc => hk (Eq.symm hc)), if_neg (fun hc => hk (Eq.symm hc)),
          if_neg hk, add_zero]
    · rw [dictAdd, if_neg hx, dictGet_cons, dictGet_cons]
      by_cases hxk : xk = k'
      · have hne : ¬k' = k := fun hc => hx (hxk.trans hc)
        rw [if_pos hxk, if_pos hxk, if_neg hne, add_zero]
      · rw [if_neg hxk, if_neg hxk, ih]

theorem categoryBreakdown_foldl (ts : List Transaction)
    (d : List (Option String × ℚ)) (k : Option String) :
    dictGet
      (ts.foldl
        (fun d t =>
          if t.transactionType == "expense" then dictAdd d t.category |t.amount| else d)
        d) k =
    dictGet d k +
      ((ts.filter (fun t => t.transactionType == "expense" && t.category == k)).map
        (fun t => |t.amount|)).sum := by
  induction ts generalizing d with
  | nil => simp
  | cons t rest ih =>
    simp only [List.foldl_cons, List.filter_cons]
    by_cases hexp : (t.transactionType == "expense") = true
    · by_cases hcat : t.category = k
      · have hb : (t.transactionType == "expense" && t.category == k) = true := by
          rw [hexp, beq_iff_eq.mpr hcat]; rfl
        rw [if_pos hexp, if_pos hb, List.map_cons, List.sum_cons, ih,
          dictGet_dictAdd, if_pos hcat.symm]
        ring
      · have hb : (t.transactionType == "expense" && t.category == k) = false := by
          have : (t.category == k) = false := by simpa using hcat
          rw [this, Bool.and_false]
        rw [if_pos hexp, if_neg (by simp [hb]), ih, dictGet_dictAdd,
          if_neg (fun hc => hcat hc.symm), add_zero]
    · have hb : (t.transactionType == "expense" && t.category == k) = false := by
        have : (t.transactionType == "expense") = false := by simpa using hexp
        rw [this, Bool.false_and]
      rw [if_neg hexp, if_neg (by simp [hb])]
      exact ih d

/-- C2: the analytics summary over the caller's transactions reports
`total_income` as the sum of income amounts, `total_expenses` as the
sum of absolute expense amounts, `net_savings` as their difference,
`savings_rate` as `net/income*100` (0 when income is 0 or negative),
and a category breakdown where each category's value is the sum of the
absolute expense amounts in it. -/
theorem c2_analytics_summary (ts : List Transaction) :
    (getAnalyticsSummary ts).totalIncome =
      ((ts.filter (fun t => t.transactionType == "income")).map
        (fun t => t.amount)).sum ∧
    (getAnalyticsSummary ts).totalExpenses =
      ((ts.filter (fun t => t.transactionType == "expense")).map
        (fun t => |t.amount|)).sum ∧
    (getAnalyticsSummary ts).netSavings =
      (getAnalyticsSummary ts).totalIncome - (getAnalyticsSummary ts).totalExpenses ∧
    (0 < (getAnalyticsSummary ts).totalIncome →
      (getAnalyticsSummary ts).savingsRate =
        (getAnalyticsSummary ts).netSavings / (getAnalyticsSummary ts).totalIncome * 100) ∧
    ((getAnalyticsSummary ts).totalIncome ≤ 0 →
      (getAnalyticsSummary ts).savingsRate = 0) ∧
    (∀ k, dictGet (getAnalyticsSummary ts).categoryBreakdown k =
      ((ts.filter (fun t => t.transactionType == "expense" && t.category == k)).map
        (fun t => |t.amount|)).sum) := by
  refine ⟨rfl, rfl, rfl, ?_, ?_, ?_⟩
  · intro hpos
    simp only [getAnalyticsSummary] at hpos ⊢
    rw [if_pos hpos]
  · intro hle
    simp only [getAnalyticsSummary] at hle ⊢
    rw [if_neg (not_lt.mpr hle)]
  · intro k
    have h := categoryBreakdown_foldl ts [] k
    rw [dictGet_nil, zero_add] at h
    exact h

/-- C2 witness: for one income of 100000 and one expense of -40000 the
summary reports income 100000, expenses 40000, net 60000 and rate 60. -/
theorem c2_analytics_summary_witness :
    (getAnalyticsSummary c2Txns).totalIncome = 100000 ∧
    (getAnalyticsSummary c2Txns).totalExpenses = 40000 ∧
    (getAnalyticsSummary c2Txns).netSavings = 60000 ∧
    (getAnalyticsSummary c2Txns).savingsRate = 60 := by
  have h := c2_analytics_summary c2Txns
  have hinc : (getAnalyticsSummary c2Txns).totalIncome = 100000 := by
    rw [h.1]; simp [c2Txns, beq_iff_eq]
  have hexp : (getAnalyticsSummary c2Txns).totalExpenses = 40000 := by
    rw [h.2.1]; simp [c2Txns, beq_iff_eq, abs]
  have hnet : (getAnalyticsSummary c2Txns).netSavings = 60000 := by
    rw [h.2.2.1, hinc, hexp]; norm_num
  refine ⟨hinc, hexp, hnet, ?_⟩
  rw [h.2.2.2.1 (by rw [hinc]; norm_num), hnet, hinc]
  norm_num

theorem find?_first_characterization {α : Type} (p : α → Bool) (l : List α)
    (a : α) (h : l.find? p = some a) :
    p a = true ∧ ∃ pre post, l = pre ++ a :: post ∧ ∀ x ∈ pre, p x = false := by
  induction l with
  | nil => simp [List.find?] at h
  | cons x rest ih =>
    by_cases hx : p x = true
    · rw [List.find?, hx] at h
      obtain rfl : x = a := by simpa using h
      exact ⟨hx, [], rest, rfl, by simp⟩
    · have hxf : p x = false := by simpa using hx
      rw [List.find?, hxf] at h
      obtain ⟨hpa, pre, post, hl, hpre⟩ := ih h
      refine ⟨hpa, x :: pre, post, by rw [hl]; rfl, ?_⟩
      intro y hy
      rcases List.mem_cons.mp hy with rfl | hy'
      · exact hxf
      · exact hpre y hy'

/-- C3: the expense categorizer is a total function of the model-call
outcome that always returns one of the 12 canonical categories: an
exactly-matching trimmed reply is returned as-is; otherwise the first
canonical category matching the reply case-insensitively as a
substring in either direction is returned; otherwise — and on any call
failure — `"Other"`. -/
theorem c3_categorizer_total (outcome : Except String String) :
    categorize outcome ∈ CATEGORIES ∧
    (∀ e, outcome = .error e → categorize outcome = "Other") ∧
    (∀ r, outcome = .ok r → r.trim ∈ CATEGORIES → categorize outcome = r.trim) ∧
    (∀ r, outcome = .ok r → r.trim ∉ CATEGORIES →
      ∀ c, CATEGORIES.find? (fun cat => looseCategoryMatch cat r.trim) = some c →
        categorize outcome = c ∧ looseCategoryMatch c r.trim = true ∧
          ∃ pre post, CATEGORIES = pre ++ c :: post ∧
            ∀ c' ∈ pre, looseCategoryMatch c' r.trim = false) ∧
    (∀ r, outcome = .ok r → r.trim ∉ CATEGORIES →
      CATEGORIES.find? (fun cat => looseCategoryMatch cat r.trim) = none →
        categorize outcome = "Other") := by
  refine ⟨?_, ?_, ?_, ?_, ?_⟩
  · match outcome with
    | .error e => show "Other" ∈ CATEGORIES; decide
    | .ok r =>
      by_cases hm : r.trim ∈ CATEGORIES
      · rw [categorize, if_pos hm]; exact hm
      · rw [categorize, if_neg hm]
        match hf : CATEGORIES.find? (fun cat => looseCategoryMatch cat r.trim) with
        | some c =>
          obtain ⟨_, pre, post, hl, _⟩ := find?_first_characterization _ _ _ hf
          rw [hl]; simp
        | none => show "Other" ∈ CATEGORIES; decide
  · intro e he; subst he; rfl
  · intro r hr hm; subst hr; rw [categorize, if_pos hm]
  · intro r hr hm c hf; subst hr
    obtain ⟨hp, pre, post, hl, hpre⟩ := find?_first_characterization _ _ _ hf
    refine ⟨?_, hp, pre, post, hl, hpre⟩
    rw [categorize, if_neg hm, hf]
  · intro r hr hm hf; subst hr
    rw [categorize, if_neg hm, hf]

/-- C3 witness: a failed model call yields `"Other"`. -/
theorem c3_categorizer_total_witness :
    categorize (Except.error "network down") = "Other" :=
  (c3_categorizer_total (Except.error "network down")).2.1 "network down" rfl

/-- C4 (amended): the transaction-creation schema has no category
field, so a category supplied by the caller is dropped by request
parsing and the created transaction's category is always the
categorizer's result; the transaction's date is the request date,
defaulting to the creation time when the caller omits it. -/
theorem c4_create_transaction (raw : RawTransactionRequest) (userId : Int)
    (catOutcome : Except String String) (now : DateTime) (newId : Int) :
    (createTransaction userId (parseTransactionCreate raw) catOutcome now newId).category =
      some (categorize catOutcome) ∧
    (createTransaction userId (parseTransactionCreate raw) catOutcome now newId).date =
      raw.date.getD now ∧
    (raw.date = none →
      (createTransaction userId (parseTransactionCreate raw) catOutcome now newId).date = now) := by
  refine ⟨rfl, rfl, ?_⟩
  intro hnone
  show (parseTransactionCreate raw).date.getD now = now
  rw [parseTransactionCreate]
  simp [hnone]

/-- C4 witness: for a dateless request the created transaction's date
is the creation time, and its category is the categorizer's result. -/
theorem c4_create_transaction_witness :
    (createTransaction 1 (parseTransactionCreate c4Raw) (Except.error "llm unavailable")
      ⟨2024, 6, 19900⟩ 1).date = ⟨2024, 6, 19900⟩ ∧
    (createTransaction 1 (parseTransactionCreate c4Raw) (Except.error "llm unavailable")
      ⟨2024, 6, 19900⟩ 1).category = some (categorize (Except.error "llm unavailable")) := by
  have h := c4_create_transaction c4Raw 1 (Except.error "llm unavailable") ⟨2024, 6, 19900⟩ 1
  exact ⟨h.2.2 rfl, h.1⟩

/-- C4 counterexample: the claim that an explicitly supplied category
is stored fails — a request supplying category `"Travel"` (while the
categorizer yields `"Other"`) produces a transaction whose stored
category is `"Other"`, because `TransactionCreate` has no category
field and the supplied value is ignored. -/
theorem c4_supplied_category_ignored_counterexample :
    ¬(∀ (raw : RawTransactionRequest) (userId : Int)
        (catOutcome : Except String String) (now : DateTime) (newId : Int)
        (c : String),
        raw.category = some c →
        (createTransaction userId (parseTransactionCreate raw) catOutcome now newId).category =
          some c) := by
  intro h
  have hc := h c4Raw 1 (Except.error "llm unavailable") ⟨2024, 6, 19900⟩ 1 "Travel"
    (by rfl)
  have : some (categorize (Except.error "llm unavailable")) = some "Travel" := hc
  simp [categorize] at this

/-- C5: contributing a positive amount to a non-completed goal adds
exactly that amount to `current_amount`, succeeds without error, and
sets `is_completed` exactly when the new amount reaches the target;
contributing to an already-completed goal fails with a 400 client
error and leaves the goal unchanged. -/
theorem c5_contribute_to_goal (g : Goal) (amount : ℚ) (hpos : 0 < amount) :
    (g.isCompleted = false →
      (contributeToGoal g amount).1.currentAmount = g.currentAmount + amount ∧
      (contributeToGoal g amount).2 = none ∧
      (g.currentAmount + amount ≥ g.targetAmount →
        (contributeToGoal g amount).1.isCompleted = true) ∧
      (g.currentAmount + amount < g.targetAmount →
        (contributeToGoal g amount).1.isCompleted = false)) ∧
    (g.isCompleted = true →
      contributeToGoal g amount =
        (g, some ⟨400, "Cannot contribute to a completed goal"⟩)) := by
  constructor
  · intro hco
    have hif : contributeToGoal g amount =
        (if g.currentAmount + amount ≥ g.targetAmount then
          { g with currentAmount := g.currentAmount + amount, isCompleted := true }
        else { g with currentAmount := g.currentAmount + amount }, none) := by
      rw [contributeToGoal, if_neg (by rw [hco]; exact Bool.false_ne_true)]
    by_cases hge : g.currentAmount + amount ≥ g.targetAmount
    · rw [hif, if_pos hge]
      exact ⟨rfl, rfl, fun _ => rfl, fun hlt => absurd hge (not_le.mpr hlt)⟩
    · rw [hif, if_neg hge]
      exact ⟨rfl, rfl, fun hge' => absurd hge' hge, fun _ => hco⟩
  · intro hco
    rw [contributeToGoal, if_pos hco]

/-- C5 witness: contributing 70 to the active 40-of-100 goal yields
110 and completes it; contributing to the completed goal errors. -/
theorem c5_contribute_to_goal_witness :
    (contributeToGoal c5Goal 70).1.currentAmount = 110 ∧
    (contributeToGoal c5Goal 70).1.isCompleted = true ∧
    (contributeToGoal c5DoneGoal 70).2 =
      some ⟨400, "Cannot contribute to a completed goal"⟩ := by
  have h := c5_contribute_to_goal c5Goal 70 (by norm_num)
  have hdone := c5_contribute_to_goal c5DoneGoal 70 (by norm_num)
  refine ⟨?_, ?_, ?_⟩
  · rw [(h.1 rfl).1]; norm_num [c5Goal]
  · exact (h.1 rfl).2.2.1 (by norm_num [c5Goal])
  · rw [hdone.2 rfl]

/-- C6 (amended): for a non-empty daily expense series and forecast
horizon of `months` (1-12), the statistical fallback produces exactly
`months*30` daily predictions before monthly aggregation; day `i`
ahead is predicted as the recent 30-day (or all-available) average
plus `trend*i`, floored at 0; the upper bound is +15% of the unfloored
prediction and the lower bound is -15% of the unfloored prediction
floored at 0; each day's confidence is `max(70, 95 - i)`, so
confidences are non-increasing from day 1 to day N and never drop
below 70. -/
theorem c6_statistical_fallback (ys : List ℚ) (months : Nat)
    (hys : ys ≠ []) (h1m : 1 ≤ months) (h12 : months ≤ 12) :
    (statisticalDailyPredictions ys months).length = months * 30 ∧
    (∀ j, j < months * 30 →
      (statisticalDailyPredictions ys months).get? j = some
        { daysAhead := j + 1
          yhat := max 0 (recentAverage ys + linearTrend ys * ((j + 1 : ℕ) : ℚ))
          yhatLower :=
            max 0 ((recentAverage ys + linearTrend ys * ((j + 1 : ℕ) : ℚ)) * (85 / 100))
          yhatUpper := (recentAverage ys + linearTrend ys * ((j + 1 : ℕ) : ℚ)) * (115 / 100)
          confidence := max 70 (95 - ((j + 1 : ℕ) : ℤ)) }) ∧
    (∀ p ∈ statisticalDailyPredictions ys months, 70 ≤ p.confidence) ∧
    (∀ j1 j2 p1 p2, j1 ≤ j2 →
      (statisticalDailyPredictions ys months).get? j1 = some p1 →
      (statisticalDailyPredictions ys months).get? j2 = some p2 →
      p2.confidence ≤ p1.confidence) := by
  have hne : ¬ys.length = 0 := fun h => hys (List.length_eq_zero.mp h)
  have hdef : statisticalDailyPredictions ys months =
      (List.range (months * 30)).map (fun j =>
        { daysAhead := j + 1
          yhat := max 0 (recentAverage ys + linearTrend ys * ((j + 1 : ℕ) : ℚ))
          yhatLower :=
            max 0 ((recentAverage ys + linearTrend ys * ((j + 1 : ℕ) : ℚ)) * (85 / 100))
          yhatUpper := (recentAverage ys + linearTrend ys * ((j + 1 : ℕ) : ℚ)) * (115 / 100)
          confidence := max 70 (95 - ((j + 1 : ℕ) : ℤ)) }) := by
    simp only [statisticalDailyPredictions, statisticalForecastFallback]
    rw [if_neg hne]
  have hchar : ∀ j, j < months * 30 →
      (statisticalDailyPredictions ys months).get? j = some
        { daysAhead := j + 1
          yhat := max 0 (recentAverage ys + linearTrend ys * ((j + 1 : ℕ) : ℚ))
          yhatLower :=
            max 0 ((recentAverage ys + linearTrend ys * ((j + 1 : ℕ) : ℚ)) * (85 / 100))
          yhatUpper := (recentAverage ys + linearTrend ys * ((j + 1 : ℕ) : ℚ)) * (115 / 100)
          confidence := max 70 (95 - ((j + 1 : ℕ) : ℤ)) } := by
    intro j hj
    rw [hdef, List.get?_map, List.get?_range hj, Option.map_some']
  refine ⟨by rw [hdef]; simp, hchar, ?_, ?_⟩
  · intro p hp
    rw [hdef] at hp
    obtain ⟨j, _, rfl⟩ := List.mem_map.mp hp
    exact le_max_left _ _
  · intro j1 j2 p1 p2 hle hg1 hg2
    have hj1 : j1 < (statisticalDailyPredictions ys months).length :=
      (List.get?_eq_some.mp hg1).1
    have hj2 : j2 < (statisticalDailyPredictions ys months).length :=
      (List.get?_eq_some.mp hg2).1
    rw [hdef, List.length_map, List.length_range] at hj1 hj2
    have e1 := hchar j1 hj1
    have e2 := hchar j2 hj2
    rw [hg1] at e1
    rw [hg2] at e2
    have hp1 := Option.some.inj e1
    have hp2 := Option.some.inj e2
    rw [hp1, hp2]
    show max 70 (95 - ((j2 + 1 : ℕ) : ℤ)) ≤ max 70 (95 - ((j1 + 1 : ℕ) : ℤ))
    exact max_le_max (le_refl 70) (by omega)

/-- C6 witness: a one-day series of 5 at one month yields exactly 30
daily predictions, with day 1 at confidence 94 and day 30 at 70. -/
theorem c6_statistical_fallback_witness :
    (statisticalDailyPredictions [(5 : ℚ)] 1).length = 30 ∧
    ((statisticalDailyPredictions [(5 : ℚ)] 1).get? 0).map (fun p => p.confidence) =
      some 94 ∧
    ((statisticalDailyPredictions [(5 : ℚ)] 1).get? 29).map (fun p => p.confidence) =
      some 70 := by
  have h := c6_statistical_fallback [(5 : ℚ)] 1 (by simp) (le_refl 1) (by norm_num)
  refine ⟨h.1, ?_, ?_⟩
  · rw [h.2.1 0 (by norm_num)]; rfl
  · rw [h.2.1 29 (by norm_num)]; rfl

/-- C6 counterexample: the claim that the lower bound always sits at
-15% of the unfloored prediction fails: for the series
[10,0,0,0,0,0,0,0] at one month, day 8's unfloored prediction is
-5/28, so -15% of it is -17/112, but the stored lower bound is 0
(the code floors the lower bound at 0). -/
theorem c6_lower_bound_floor_counterexample :
    recentAverage c6Series + linearTrend c6Series * ((8 : ℕ) : ℚ) = -5 / 28 ∧
    ((-5 / 28 : ℚ) * (85 / 100)) = -17 / 112 ∧
    ((statisticalDailyPredictions c6Series 1).get? 7).map (fun p => p.yhatLower) =
      some 0 ∧
    ((-17 / 112 : ℚ)) ≠ 0 := by
  have havg : recentAverage c6Series = 5 / 4 := by
    norm_num [recentAverage, c6Series, meanQ, lastN]
  have htrend : linearTrend c6Series = -5 / 28 := by
    norm_num [linearTrend, c6Series, meanQ, lastN]
  refine ⟨?_, by norm_num, ?_, by norm_num⟩
  · rw [havg, htrend]; norm_num
  · have hchar := (c6_statistical_fallback c6Series 1 (by simp [c6Series])
      (le_refl 1) (by norm_num)).2.1 7 (by norm_num)
    rw [hchar]
    simp only [Option.map_some']
    congr 1
    show max 0 ((recentAverage c6Series + linearTrend c6Series * ((8 : ℕ) : ℚ)) * (85 / 100)) = 0
    rw [havg, htrend]
    norm_num

theorem validateInsights_length_pos (v : JsonVal) (l : List Insight)
    (h : validateInsights v = some l) : 1 ≤ l.length := by
  match v with
  | .null | .bool _ | .num _ | .str _ | .obj _ => simp [validateInsights] at h
  | .arr items =>
    rw [validateInsights] at h
    match hm : items.mapM validateInsightItem with
    | none => rw [hm] at h; exact absurd h (by simp)
    | some l' =>
      rw [hm] at h
      dsimp only at h
      by_cases hlen : 1 ≤ l'.length ∧ l'.length ≤ 10
      · rw [if_pos hlen] at h
        obtain rfl : l' = l := by simpa using h
        exact hlen.1
      · rw [if_neg hlen] at h
        exact absurd h (by simp)

/-- C7 (amended): neither the insights nor the tips endpoint ever
raises to the caller (both are total functions of the model outcome);
the insights payload always contains at least one insight, and on a
model-call failure or a parse failure both endpoints return their
fixed hardcoded three-entry fallback.  The tips payload, however, is
returned unvalidated, so a successfully parsed reply may carry zero
tips. -/
theorem c7_insights_tips_fallback (jsonLoads : String → Option JsonVal)
    (outcome : Except String String) :
    1 ≤ (getAIInsights jsonLoads outcome).length ∧
    (∀ e, outcome = .error e →
      getAIInsights jsonLoads outcome = fallbackInsights ∧
      getFinancialTips jsonLoads outcome = fallbackTipsJson) ∧
    (∀ r, outcome = .ok r → twoStageParse jsonLoads r = none →
      getAIInsights jsonLoads outcome = fallbackInsights ∧
      getFinancialTips jsonLoads outcome = fallbackTipsJson) ∧
    fallbackInsights.length = 3 ∧ tipsCount fallbackTipsJson = 3 := by
  refine ⟨?_, ?_, ?_, rfl, rfl⟩
  · match outcome with
    | .error e =>
      show 1 ≤ fallbackInsights.length
      norm_num [fallbackInsights]
    | .ok r =>
      rw [getAIInsights]
      match hp : twoStageParse jsonLoads r with
      | none => norm_num [fallbackInsights]
      | some v =>
        dsimp only
        match hv : validateInsights v with
        | some insights =>
          dsimp only
          exact validateInsights_length_pos v insights hv
        | none => norm_num [fallbackInsights]
  · intro e he; subst he; exact ⟨rfl, rfl⟩
  · intro r hr hp; subst hr
    constructor
    · rw [getAIInsights, hp]
    · rw [getFinancialTips, hp]

/-- C7 witness: on a model-call failure both endpoints return their
hardcoded fallbacks (three insights, three tips). -/
theorem c7_insights_tips_fallback_witness :
    getAIInsights demoJsonLoads (Except.error "timeout") = fallbackInsights ∧
    getFinancialTips demoJsonLoads (Except.error "timeout") = fallbackTipsJson :=
  (c7_insights_tips_fallback demoJsonLoads (Except.error "timeout")).2.1 "timeout" rfl

/-- C7 counterexample: the claim that the tips payload always contains
at least one tip fails — when the model replies `"[]"`, the reply
parses as an empty JSON array, no exception is raised, and the
returned tips payload contains zero entries. -/
theorem c7_empty_tips_counterexample :
    getFinancialTips demoJsonLoads (Except.ok "[]") = JsonVal.arr [] ∧
    tipsCount (getFinancialTips demoJsonLoads (Except.ok "[]")) = 0 := by
  have h : getFinancialTips demoJsonLoads (Except.ok "[]") = JsonVal.arr [] := by
    rw [getFinancialTips]
    have hp : twoStageParse demoJsonLoads "[]" = some (JsonVal.arr []) := by
      rw [twoStageParse]
      have : demoJsonLoads "[]" = some (JsonVal.arr []) := by
        rw [demoJsonLoads]; simp
      rw [this]
    rw [hp]
  exact ⟨h, by rw [h]; rfl⟩

/-- C8: registration with an email already present fails with a 400
naming the email, one with only the username already present fails
with a 400 naming the username, and in either conflict case the user
table is left unchanged; otherwise exactly one new user row is
appended carrying the given email, username and full name together
with the hash of the password (no plaintext field exists on the user
row). -/
theorem c8_register (users : List User) (req : UserCreate)
    (hash : String → String) (newId : Int) :
    ((∃ u ∈ users, u.email = req.email) →
      register users req hash newId =
        (users, .error ⟨400, "Email already registered"⟩)) ∧
    ((¬∃ u ∈ users, u.email = req.email) → (∃ u ∈ users, u.username = req.username) →
      register users req hash newId =
        (users, .error ⟨400, "Username already taken"⟩)) ∧
    (((∃ u ∈ users, u.email = req.email) ∨ (∃ u ∈ users, u.username = req.username)) →
      (register users req hash newId).1 = users ∧
      ∃ e, (register users req hash newId).2 = Except.error e ∧
        400 ≤ e.statusCode ∧ e.statusCode < 500) ∧
    ((¬∃ u ∈ users, u.email = req.email) → (¬∃ u ∈ users, u.username = req.username) →
      register users req hash newId =
        (users ++ [{ id := newId, email := req.email, username := req.username,
                     fullName := req.fullName, hashedPassword := hash req.password,
                     isActive := true }], Except.ok newId)) := by
  have hany_email : (users.any (fun u => u.email == req.email)) = true ↔
      ∃ u ∈ users, u.email = req.email := by
    simp [List.any_eq_true]
  have hany_user : (users.any (fun u => u.username == req.username)) = true ↔
      ∃ u ∈ users, u.username = req.username := by
    simp [List.any_eq_true]
  refine ⟨?_, ?_, ?_, ?_⟩
  · intro hdup
    rw [register, if_pos (hany_email.mpr hdup)]
  · intro hno hdup
    rw [register, if_neg (fun hc => hno (hany_email.mp hc)),
      if_pos (hany_user.mpr hdup)]
  · intro hdup
    rcases hdup with hde | hdu
    · rw [register, if_pos (hany_email.mpr hde)]
      exact ⟨rfl, _, rfl, by norm_num, by norm_num⟩
    · by_cases hde : ∃ u ∈ users, u.email = req.email
      · rw [register, if_pos (hany_email.mpr hde)]
        exact ⟨rfl, _, rfl, by norm_num, by norm_num⟩
      · rw [register, if_neg (fun hc => hde (hany_email.mp hc)),
          if_pos (hany_user.mpr hdu)]
        exact ⟨rfl, _, rfl, by norm_num, by norm_num⟩
  · intro hne hnu
    rw [register, if_neg (fun hc => hne (hany_email.mp hc)),
      if_neg (fun hc => hnu (hany_user.mp hc))]

/-- C8 witness: registering a duplicate email against a one-user table
is rejected and leaves the table unchanged, while a fresh registration
appends exactly the hashed-password row. -/
theorem c8_register_witness :
    register [c8Alice] c8DupReq (fun s => s ++ "#h") 2 =
      ([c8Alice], .error ⟨400, "Email already registered"⟩) ∧
    register [c8Alice] c8FreshReq (fun s => s ++ "#h") 2 =
      ([c8Alice,
        { id := 2, email := "bob@example.com", username := "bob",
          fullName := "Bob B", hashedPassword := "secret#h", isActive := true }],
       Except.ok 2) := by
  constructor
  · exact (c8_register [c8Alice] c8DupReq (fun s => s ++ "#h") 2).1
      ⟨c8Alice, by simp, rfl⟩
  · have h := (c8_register [c8Alice] c8FreshReq (fun s => s ++ "#h") 2).2.2.2
      (by simp [c8Alice, c8FreshReq]) (by simp [c8Alice, c8FreshReq])
    rw [h]
    rfl

/-- C9: on create, list, get-by-id and update, the recomputed
`current_spent` carried by the budget response is the plain sum of the
stored signed amounts of the user's `"expense"` transactions matching
the budget's category, month and year (0 when there are none, the sum
over the empty list); no absolute value is applied, so an expense
stored with amount -50 yields `current_spent = -50`, unlike the
absolute-valued `total_expenses = 50` of the analytics summary over
the same transactions. -/
theorem c9_budget_spent_signed_sum (budgets : List Budget)
    (txns : List Transaction) (userId : Int) :
    (∀ (req : BudgetCreate) (newId : Int) (resp : BudgetResponse)
        (budgets' : List Budget),
      createBudget budgets txns userId req newId = (budgets', Except.ok resp) →
      resp.currentSpent =
        ((txns.filter (fun t => t.userId == userId && t.category == some req.category &&
            t.transactionType == "expense" && t.date.month == req.month &&
            t.date.year == req.year)).map (fun t => t.amount)).sum) ∧
    (∀ (monthQ yearQ : Option Int),
      (getBudgets budgets txns userId monthQ yearQ).2 =
        (budgets.filter (budgetListed userId monthQ yearQ)).map (fun b =>
          formatBudgetResponse { b with currentSpent :=
            ((txns.filter (fun t => t.userId == userId && t.category == some b.category &&
                t.transactionType == "expense" && t.date.month == b.month &&
                t.date.year == b.year)).map (fun t => t.amount)).sum })) ∧
    (∀ (budgetId : Int) (b : Budget),
      budgets.find? (fun b => b.id == budgetId && b.userId == userId) = some b →
      getBudget budgets txns userId budgetId = Except.ok (formatBudgetResponse
        { b with currentSpent :=
            ((txns.filter (fun t => t.userId == userId && t.category == some b.category &&
                t.transactionType == "expense" && t.date.month == b.month &&
                t.date.year == b.year)).map (fun t => t.amount)).sum })) ∧
    (∀ (budgetId : Int) (b : Budget) (upd : BudgetUpdate),
      budgets.find? (fun b => b.id == budgetId && b.userId == userId) = some b →
      updateBudget budgets txns userId budgetId upd = Except.ok (formatBudgetResponse
        { b with monthlyLimit := upd.monthlyLimit.getD b.monthlyLimit
                 month := upd.month.getD b.month
                 year := upd.year.getD b.year
                 currentSpent :=
                   ((txns.filter (fun t => t.userId == userId &&
                       t.category == some b.category &&
                       t.transactionType == "expense" &&
                       t.date.month == upd.month.getD b.month &&
                       t.date.year == upd.year.getD b.year)).map
                     (fun t => t.amount)).sum })) ∧
    (recomputeSpent c9Txns 1 "Groceries" 5 2024 = -50 ∧
      totalExpenses c9Txns = 50 ∧ ((-50 : ℚ) ≠ 50)) := by
  refine ⟨?_, ?_, ?_, ?_, ?_, ?_, by norm_num⟩
  · intro req newId resp budgets' heq
    rw [createBudget] at heq
    by_cases hdup : (budgets.any (fun b =>
        b.userId == userId && b.category == req.category &&
          b.month == req.month && b.year == req.year)) = true
    · rw [if_pos hdup] at heq
      exact absurd (congrArg Prod.snd heq) (by simp)
    · rw [if_neg hdup] at heq
      have h2 := congrArg Prod.snd heq
      simp only at h2
      have : formatBudgetResponse
          { id := newId, userId := userId, category := req.category,
            monthlyLimit := req.monthlyLimit,
            currentSpent := recomputeSpent txns userId req.category req.month req.year,
            month := req.month, year := req.year } = resp := by
        exact Except.ok.inj h2
      rw [← this]
      rfl
  · intro monthQ yearQ
    rfl
  · intro budgetId b hfind
    rw [getBudget, hfind]
    rfl
  · intro budgetId b upd hfind
    rw [updateBudget, hfind]
    rfl
  · show ((c9Txns.filter (matchesBudgetSpent 1 "Groceries" 5 2024)).map
      (fun t => t.amount)).sum = -50
    simp [c9Txns, matchesBudgetSpent, beq_iff_eq]
  · show ((c9Txns.filter (fun t => t.transactionType == "expense")).map
      (fun t => |t.amount|)).sum = 50
    simp [c9Txns, beq_iff_eq, abs]

/-- C9 witness: creating a budget over the single -50 expense stores
and reports `current_spent = -50`. -/
theorem c9_budget_spent_signed_sum_witness :
    (formatBudgetResponse
      { id := 1, userId := 1, category := "Groceries", monthlyLimit := 200,
        currentSpent := recomputeSpent c9Txns 1 "Groceries" 5 2024,
        month := 5, year := 2024 }).currentSpent =
      ((c9Txns.filter (fun t => t.userId == 1 && t.category == some "Groceries" &&
          t.transactionType == "expense" && t.date.month == 5 &&
          t.date.year == 2024)).map (fun t => t.amount)).sum := by
  have h := (c9_budget_spent_signed_sum [] c9Txns 1).1 c9Req 1
    (formatBudgetResponse
      { id := 1, userId := 1, category := "Groceries", monthlyLimit := 200,
        currentSpent := recomputeSpent c9Txns 1 "Groceries" 5 2024,
        month := 5, year := 2024 })
    [{ id := 1, userId := 1, category := "Groceries", monthlyLimit := 200,
       currentSpent := recomputeSpent c9Txns 1 "Groceries" 5 2024,
       month := 5, year := 2024 }]
    rfl
  exact h

/-- C10: for a non-completed goal whose target date is not in the
past, the response status is `"on_track"` exactly when the progress
percentage is at least `100 - days_remaining/(days_remaining+1)*100`,
which equals `100/(days_remaining+1)`, and `"behind"` otherwise; and
the decision is a function of the progress percentage and the days
remaining alone — two goals agreeing on those two values (regardless
of creation time or anything else) get the same status. -/
theorem c10_goal_pace_status (g : Goal) (today : Int)
    (hc : g.isCompleted = false) (hd : 0 ≤ g.targetDate - today) :
    ((formatGoalResponse g today).status = "on_track" ↔
      goalProgress g ≥
        100 - ((g.targetDate - today : Int) : ℚ) /
          (((g.targetDate - today : Int) : ℚ) + 1) * 100) ∧
    ((formatGoalResponse g today).status = "on_track" ↔
      goalProgress g ≥ 100 / (((g.targetDate - today : Int) : ℚ) + 1)) ∧
    ((formatGoalResponse g today).status = "behind" ↔
      goalProgress g < 100 / (((g.targetDate - today : Int) : ℚ) + 1)) ∧
    (∀ (g2 : Goal) (today2 : Int), g2.isCompleted = false →
      g2.targetDate - today2 = g.targetDate - today →
      goalProgress g2 = goalProgress g →
      (formatGoalResponse g2 today2).status = (formatGoalResponse g today).status) := by
  have hsA : ("on_track" : String) ≠ "behind" := by decide
  have hsB : ("behind" : String) ≠ "on_track" := by decide
  have hterm : ∀ (g' : Goal) (t' : Int), g'.isCompleted = false →
      0 ≤ g'.targetDate - t' →
      (formatGoalResponse g' t').status =
        (if goalProgress g' ≥
            100 - ((g'.targetDate - t' : Int) : ℚ) /
              (((g'.targetDate - t' : Int) : ℚ) + 1) * 100 then "on_track"
         else "behind") := by
    intro g' t' hc' hd'
    show (if g'.isCompleted then "completed"
      else if g'.targetDate - t' < 0 then "overdue"
      else if goalProgress g' ≥
          (100 - (((g'.targetDate - t' : Int) : ℚ) /
            (((g'.targetDate - t' : Int) : ℚ) + 1) * 100)) then "on_track"
      else "behind") = _
    rw [hc', if_neg Bool.false_ne_true, if_neg (not_lt.mpr hd')]
  have hpos : (0 : ℚ) < ((g.targetDate - today : Int) : ℚ) + 1 := by
    have : (0 : ℚ) ≤ ((g.targetDate - today : Int) : ℚ) := by
      exact_mod_cast hd
    linarith
  have hne : (((g.targetDate - today : Int) : ℚ) + 1) ≠ 0 := ne_of_gt hpos
  have halg : 100 - ((g.targetDate - today : Int) : ℚ) /
      (((g.targetDate - today : Int) : ℚ) + 1) * 100 =
      100 / (((g.targetDate - today : Int) : ℚ) + 1) := by
    rw [div_mul_eq_mul_div, sub_eq_iff_eq_add, div_add_div_same,
      eq_div_iff hne]
    ring
  have hiff1 : (formatGoalResponse g today).status = "on_track" ↔
      goalProgress g ≥
        100 - ((g.targetDate - today : Int) : ℚ) /
          (((g.targetDate - today : Int) : ℚ) + 1) * 100 := by
    rw [hterm g today hc hd]
    by_cases hcond : goalProgress g ≥
        100 - ((g.targetDate - today : Int) : ℚ) /
          (((g.targetDate - today : Int) : ℚ) + 1) * 100
    · rw [if_pos hcond]
      exact iff_of_true rfl hcond
    · rw [if_neg hcond]
      exact iff_of_false hsB hcond
  refine ⟨hiff1, ?_, ?_, ?_⟩
  · rw [hiff1, halg]
  · rw [hterm g today hc hd]
    by_cases hcond : goalProgress g ≥
        100 - ((g.targetDate - today : Int) : ℚ) /
          (((g.targetDate - today : Int) : ℚ) + 1) * 100
    · rw [if_pos hcond]
      refine iff_of_false hsA (not_lt.mpr ?_)
      rw [← halg]
      exact hcond
    · rw [if_neg hcond]
      refine iff_of_true rfl ?_
      rw [← halg]
      exact lt_of_not_ge hcond
  · intro g2 today2 hc2 hdays hprog
    have hd2 : 0 ≤ g2.targetDate - today2 := hdays ▸ hd
    rw [hterm g2 today2 hc2 hd2, hterm g today hc hd, hdays, hprog]

/-- C10 witness: a 50-of-100 goal with nine days remaining is on
track (50 ≥ 100/10), and any goal of equal progress and equal days
remaining gets the same status. -/
theorem c10_goal_pace_status_witness :
    (formatGoalResponse c10Goal 19991).status = "on_track" := by
  have h := c10_goal_pace_status c10Goal 19991 rfl (by norm_num [c10Goal])
  refine h.2.1.mpr ?_
  norm_num [goalProgress, c10Goal]

end FinAdvisor
